import Mathlib

/-!
Shallow embedding of the petchat frontend logic.

The stateful React components are modelled as pure state-transition
functions: each event handler takes the current component state together
with the outcome of any network call it awaits (an Except value, since the
transport either delivers a decoded payload or throws), and returns the
new state plus the observable side signals (whether a network call was
issued, whether an error was surfaced).
-/

namespace PetChat

/-- Role of a chat message: exactly one of "user" or "pet"
(the role union type in src/frontend/src/lib/api.ts). -/
inductive Role where
  | user
  | pet
deriving DecidableEq, Repr

/-- ChatMessage interface from src/frontend/src/lib/api.ts. -/
structure ChatMessage where
  role : Role
  content : String
  timestamp : String
deriving DecidableEq, Repr

/-- Pet interface from src/frontend/src/lib/api.ts; optional fields are
Options, the two label lists are string lists. -/
structure Pet where
  id : String
  name : String
  pet_type : String
  breed : Option String
  age : Option Int
  personality_traits : List String
  favorite_things : List String
  quirks : Option String
  created_at : String
deriving DecidableEq, Repr

/-- The assistant reply payload of POST /chat: fields message and
timestamp. -/
structure SendReply where
  message : String
  timestamp : String
deriving DecidableEq, Repr

/-- The payload of GET /chat/:petId/history. The messages field is an
Option so that a missing or null field (falsy in the JS source, which
reads data.messages with a default) is representable. -/
structure HistoryPayload where
  messages : Option (List ChatMessage)
deriving DecidableEq, Repr

/-- Model of the JS String.prototype.trim used by the guard in
handleSendMessage: drop leading and trailing whitespace characters from
the character list. (Defined over the list rather than through the
library trim so that concrete instances reduce in the kernel; the two
agree on the only use here, the emptiness test.) -/
def jsTrim (s : String) : String :=
  ⟨((s.data.dropWhile Char.isWhitespace).reverse.dropWhile
      Char.isWhitespace).reverse⟩

/-- The useState cells of the ChatPage component (src/unnamed/part_001):
pet, messages, inputText, isTyping, loading. -/
structure ChatState where
  pet : Option Pet
  messages : List ChatMessage
  inputText : String
  isTyping : Bool
  loading : Bool
deriving DecidableEq, Repr

/-- Result of one handleSendMessage invocation: the new component state,
whether a network call (chatService.sendMessage) was issued, and whether
the failure alert was shown to the user. -/
structure SubmitOutput where
  state : ChatState
  networkCall : Bool
  errorAlerted : Bool
deriving DecidableEq, Repr

/-- handleSendMessage from src/unnamed/part_001 lines 52-81.
Guard: if the input text trims to empty, or isTyping is set, return at
once (no state change, no network call). Otherwise append the optimistic
user message (content is the untrimmed inputText, timestamp the client
clock value), clear the input, set isTyping, and await the send. On
success append the pet reply from the response; on failure alert the
user and keep the optimistic message. Either way the finally block
clears isTyping. The awaited outcome is passed in as an Except value. -/
def handleSendMessage (s : ChatState) (now : String)
    (send : Except Unit SendReply) : SubmitOutput :=
  if jsTrim s.inputText = "" || s.isTyping then
    ⟨s, false, false⟩
  else
    let userMessage : ChatMessage := ⟨Role.user, s.inputText, now⟩
    let s1 : ChatState :=
      { s with messages := s.messages ++ [userMessage],
               inputText := "", isTyping := true }
    match send with
    | Except.ok reply =>
        ⟨{ s1 with
             messages := s1.messages ++ [⟨Role.pet, reply.message, reply.timestamp⟩],
             isTyping := false },
         true, false⟩
    | Except.error _ =>
        ⟨{ s1 with isTyping := false }, true, true⟩

/-- Result of handleClearHistory: the new state and whether the error
branch was taken (console.error report). -/
structure ClearOutput where
  state : ChatState
  errorLogged : Bool
deriving DecidableEq, Repr

/-- handleClearHistory from src/unnamed/part_001 lines 83-91: return
unchanged unless the user confirmed; then await the remote deletion and
set messages to [] only on success, logging the error and leaving state
untouched on failure. -/
def handleClearHistory (s : ChatState) (confirmed : Bool)
    (clearRes : Except Unit Unit) : ClearOutput :=
  if !confirmed then
    ⟨s, false⟩
  else
    match clearRes with
    | Except.ok _ => ⟨{ s with messages := [] }, false⟩
    | Except.error _ => ⟨s, true⟩

/-- Result of init: the new state, whether the catch branch logged an
error, and whether the component navigated away (the router.push call in
the catch branch is commented out in the source, so this is always
false). -/
structure InitOutput where
  state : ChatState
  errorLogged : Bool
  redirected : Bool
deriving DecidableEq, Repr

/-- init from src/unnamed/part_001 lines 32-46: Promise.all over the pet
fetch and the history fetch, so the try body runs only when both
succeed, setting pet and messages (defaulting a falsy messages field to
[]). If either rejects, the catch branch only logs the error — the
router.push('/') line is commented out — and the finally block clears
loading in every case. -/
def init (petRes : Except Unit Pet) (histRes : Except Unit HistoryPayload)
    (s : ChatState) : InitOutput :=
  match petRes, histRes with
  | Except.ok p, Except.ok h =>
      ⟨{ s with pet := some p, messages := h.messages.getD [],
                loading := false }, false, false⟩
  | Except.error _, _ => ⟨{ s with loading := false }, true, false⟩
  | _, Except.error _ => ⟨{ s with loading := false }, true, false⟩

/-- ChatPage rendering (src/unnamed/part_001 lines 93-209): while
loading is set the component returns only the spinner; as soon as
loading clears it renders the full conversation view, whatever pet and
messages hold. -/
def rendersConversation (s : ChatState) : Bool :=
  !s.loading

/-- toggleTrait from src/unnamed/part_000 lines 30-42: remove the trait
if it is already selected; otherwise append it only while fewer than 5
traits are selected. -/
def toggleTrait (traits : List String) (trait : String) : List String :=
  if trait ∈ traits then
    traits.filter (fun t => t ≠ trait)
  else if traits.length < 5 then
    traits ++ [trait]
  else
    traits

/-- handleDeletePet from src/frontend/src/app/page.tsx lines 32-43:
return unchanged unless the user confirmed; then await the remote
delete, filtering the pet out of the local list only on success and
leaving the list unchanged (error logged) on failure. -/
def handleDeletePet (pets : List Pet) (confirmed : Bool)
    (delRes : Except Unit Unit) (id : String) : List Pet :=
  if !confirmed then
    pets
  else
    match delRes with
    | Except.ok _ => pets.filter (fun p => p.id ≠ id)
    | Except.error _ => pets

/-- Observable outcome of one onAuthStateChanged callback invocation in
AuthProvider: the resulting user cell, the loading cell, and the target
of any router.push issued. -/
structure AuthObservation where
  user : Option String
  loading : Bool
  redirect : Option String
deriving DecidableEq, Repr

/-- The onAuthStateChanged callback of AuthProvider
(src/frontend/src/context/AuthContext.tsx lines 26-41): with a user,
store it and never redirect; with no user, clear it and push /login
unless the current pathname is already /login or /signup. loading is
cleared in every case. The identity is modelled by its uid string. -/
def onAuthChangedCallback (u : Option String) (pathname : String) :
    AuthObservation :=
  match u with
  | some uid => ⟨some uid, false, none⟩
  | none =>
      if pathname ≠ "/login" && pathname ≠ "/signup" then
        ⟨none, false, some "/login"⟩
      else
        ⟨none, false, none⟩

/-- A sample idle state used by the concrete witnesses. -/
def sampleIdle : ChatState :=
  ⟨none, [⟨Role.pet, "Woof!", "T0"⟩], "hello", false, false⟩

end PetChat

open PetChat

/-- C1: a submit of text that is non-empty after trimming, made while
isTyping is clear (Idle), that succeeds, appends exactly the optimistic
user message (content the submitted text, timestamp the client clock)
followed by the pet message built from the transport reply; every
previously held message is unchanged and in place, and the controller is
back in Idle (isTyping clear), having issued exactly one network call. -/
theorem submit_success_appends_user_then_pet (s : ChatState) (now : String)
    (reply : SendReply) (hne : jsTrim s.inputText ≠ "") (hidle : s.isTyping = false) :
    (handleSendMessage s now (Except.ok reply)).state.messages
        = s.messages
          ++ [⟨Role.user, s.inputText, now⟩,
              ⟨Role.pet, reply.message, reply.timestamp⟩]
    ∧ (handleSendMessage s now (Except.ok reply)).state.isTyping = false
    ∧ (handleSendMessage s now (Except.ok reply)).networkCall = true := by
  simp [handleSendMessage, hne, hidle]

/-- Witness for C1 at a concrete state. -/
theorem submit_success_appends_user_then_pet_witness :
    (handleSendMessage sampleIdle "T1" (Except.ok ⟨"Bark!", "T2"⟩)).state.messages
        = [⟨Role.pet, "Woof!", "T0"⟩, ⟨Role.user, "hello", "T1"⟩,
           ⟨Role.pet, "Bark!", "T2"⟩]
    ∧ (handleSendMessage sampleIdle "T1" (Except.ok ⟨"Bark!", "T2"⟩)).state.isTyping = false := by
  have h := submit_success_appends_user_then_pet sampleIdle "T1" ⟨"Bark!", "T2"⟩
      (by decide) (by decide)
  exact ⟨h.1, h.2.1⟩

/-- C2: a submit of text that is non-empty after trimming, made while
Idle, whose send request fails, leaves the optimistic user message in
place: the message list is exactly the old list plus that one entry (so
when it was not already present it now occurs exactly once), the error
alert is shown, and isTyping is cleared so a new submit is accepted. -/
theorem submit_failure_keeps_optimistic (s : ChatState) (now : String)
    (hne : jsTrim s.inputText ≠ "") (hidle : s.isTyping = false) :
    (handleSendMessage s now (Except.error ())).state.messages
        = s.messages ++ [⟨Role.user, s.inputText, now⟩]
    ∧ ((⟨Role.user, s.inputText, now⟩ : ChatMessage) ∉ s.messages →
        (handleSendMessage s now (Except.error ())).state.messages.count
            ⟨Role.user, s.inputText, now⟩ = 1)
    ∧ (handleSendMessage s now (Except.error ())).errorAlerted = true
    ∧ (handleSendMessage s now (Except.error ())).state.isTyping = false := by
  refine ⟨?_, ?_, ?_, ?_⟩ <;>
    simp [handleSendMessage, hne, hidle, List.count_append,
      List.count_eq_zero]

/-- Witness for C2 at a concrete state. -/
theorem submit_failure_keeps_optimistic_witness :
    (handleSendMessage sampleIdle "T1" (Except.error ())).state.messages
        = [⟨Role.pet, "Woof!", "T0"⟩, ⟨Role.user, "hello", "T1"⟩]
    ∧ (handleSendMessage sampleIdle "T1" (Except.error ())).state.messages.count
        ⟨Role.user, "hello", "T1"⟩ = 1
    ∧ (handleSendMessage sampleIdle "T1" (Except.error ())).state.isTyping = false := by
  have h := submit_failure_keeps_optimistic sampleIdle "T1" (by decide) (by decide)
  exact ⟨h.1, h.2.1 (by decide), h.2.2.2⟩

/-- C3: when the input text trims to empty, handleSendMessage returns at
once: the whole component state is unchanged and no network call is
issued. -/
theorem submit_blank_is_noop (s : ChatState) (now : String)
    (send : Except Unit SendReply) (h : jsTrim s.inputText = "") :
    handleSendMessage s now send = ⟨s, false, false⟩ := by
  simp [handleSendMessage, h]

/-- Witness for C3 with a whitespace-only input. -/
theorem submit_blank_is_noop_witness :
    handleSendMessage { sampleIdle with inputText := "   " } "T1"
        (Except.ok ⟨"Bark!", "T2"⟩)
      = ⟨{ sampleIdle with inputText := "   " }, false, false⟩ :=
  submit_blank_is_noop { sampleIdle with inputText := "   " } "T1"
    (Except.ok ⟨"Bark!", "T2"⟩) (by decide)

/-- C4: while isTyping is set (a send outstanding), any further submit
is rejected immediately: the state is unchanged — in particular no
duplicate optimistic entry is appended — and no second network call is
issued. -/
theorem submit_while_sending_rejected (s : ChatState) (now : String)
    (send : Except Unit SendReply) (h : s.isTyping = true) :
    handleSendMessage s now send = ⟨s, false, false⟩ := by
  simp [handleSendMessage, h]

/-- Witness for C4 at a concrete sending state. -/
theorem submit_while_sending_rejected_witness :
    handleSendMessage { sampleIdle with isTyping := true } "T1"
        (Except.ok ⟨"Bark!", "T2"⟩)
      = ⟨{ sampleIdle with isTyping := true }, false, false⟩ :=
  submit_while_sending_rejected { sampleIdle with isTyping := true } "T1"
    (Except.ok ⟨"Bark!", "T2"⟩) rfl

/-- C5: a confirmed clear empties the local message list on success and
changes nothing else; on failure it leaves the whole state (the message
list in particular) unchanged and reports the error. -/
theorem clear_history_atomic (s : ChatState) :
    handleClearHistory s true (Except.ok ()) = ⟨{ s with messages := [] }, false⟩
    ∧ handleClearHistory s true (Except.error ()) = ⟨s, true⟩ := by
  constructor <;> simp [handleClearHistory]

/-- Witness for C5 at a concrete state (no hypotheses to discharge, the
concrete instance is spelled out for the record). -/
theorem clear_history_atomic_witness :
    handleClearHistory sampleIdle true (Except.ok ())
        = ⟨{ sampleIdle with messages := [] }, false⟩
    ∧ handleClearHistory sampleIdle true (Except.error ()) = ⟨sampleIdle, true⟩ :=
  clear_history_atomic sampleIdle

/-- C6 counterexample: with the pet fetch failing during init (history
arriving fine), the component does not navigate away (the router.push in
the catch branch is commented out in the source) and, loading having
been cleared by the finally block, the ChatPage render falls through to
the full conversation view — with no pet and an empty message list — so
the failure does not abort the session and the chat is rendered broken,
refuting the claim. -/
theorem init_failure_not_aborted :
    (init (Except.error ()) (Except.ok ⟨some []⟩)
        ⟨none, [], "", false, true⟩).redirected = false
    ∧ rendersConversation
        (init (Except.error ()) (Except.ok ⟨some []⟩)
          ⟨none, [], "", false, true⟩).state = true := by
  exact ⟨rfl, rfl⟩

/-- C6 amended: init awaits both fetches as one Promise.all, so the pet
and message cells are written only when both succeed (on a joint success
they are set from the two payloads and loading clears, with isTyping
untouched so an initially idle controller stays idle); a failure of
either fetch leaves pet and messages unwritten — never a partial state
update — and is logged; but the session is not aborted: no navigation
away happens, loading still clears, and the conversation view is
rendered (with whatever pet and messages held before). -/
theorem init_amended_behavior (s : ChatState) (p : Pet) (h : HistoryPayload)
    (pr : Except Unit Pet) (hr : Except Unit HistoryPayload) :
    init (Except.ok p) (Except.ok h) s
        = ⟨{ s with pet := some p, messages := h.messages.getD [], loading := false },
           false, false⟩
    ∧ init (Except.error ()) hr s = ⟨{ s with loading := false }, true, false⟩
    ∧ init pr (Except.error ()) s = ⟨{ s with loading := false }, true, false⟩
    ∧ rendersConversation (init pr hr s).state = true := by
  refine ⟨rfl, ?_, ?_, ?_⟩
  · cases hr <;> rfl
  · cases pr <;> rfl
  · cases pr <;> cases hr <;> simp [init, rendersConversation]

/-- Single-step invariant for C7: toggleTrait preserves distinctness and
the 5-element bound. -/
theorem toggleTrait_preserves_inv (l : List String) (t : String)
    (hnd : l.Nodup) (hlen : l.length ≤ 5) :
    (toggleTrait l t).Nodup ∧ (toggleTrait l t).length ≤ 5 := by
  unfold toggleTrait
  by_cases hmem : t ∈ l
  · rw [if_pos hmem]
    exact ⟨hnd.filter _, le_trans (List.length_filter_le _ _) hlen⟩
  · rw [if_neg hmem]
    by_cases hlt : l.length < 5
    · rw [if_pos hlt]
      refine ⟨?_, by simp; omega⟩
      simp [List.nodup_append, hnd, hmem]
    · rw [if_neg hlt]
      exact ⟨hnd, hlen⟩

/-- The fold of toggleTrait keeps the invariant from any state that has
it; the form used below starts from the empty initial selection. -/
theorem foldl_toggleTrait_inv (ts : List String) (l : List String)
    (hnd : l.Nodup) (hlen : l.length ≤ 5) :
    (ts.foldl toggleTrait l).Nodup ∧ (ts.foldl toggleTrait l).length ≤ 5 := by
  induction ts generalizing l with
  | nil => exact ⟨hnd, hlen⟩
  | cons t ts ih =>
      have h := toggleTrait_preserves_inv l t hnd hlen
      exact ih (toggleTrait l t) h.1 h.2

/-- A single toggle keeps the previous selection order: the result is a
subsequence of the old selection with the trait at most appended. -/
theorem toggleTrait_sublist_append (l : List String) (t : String) :
    (toggleTrait l t).Sublist (l ++ [t]) := by
  rw [toggleTrait]
  by_cases hmem : t ∈ l
  · rw [if_pos hmem]
    exact (List.filter_sublist _).trans (List.sublist_append_left _ _)
  · rw [if_neg hmem]
    by_cases hlt : l.length < 5
    · rw [if_pos hlt]
    · rw [if_neg hlt]
      exact List.sublist_append_left _ _

/-- Toggling a trait already in a duplicate-free selection removes
exactly that trait. -/
theorem toggleTrait_mem_erase (l : List String) (t : String)
    (hnd : l.Nodup) (hmem : t ∈ l) :
    toggleTrait l t = l.erase t := by
  rw [toggleTrait, if_pos hmem, hnd.erase_eq_filter]
  exact List.filter_congr fun x _ => by by_cases h : x = t <;> simp [h]

/-- Toggling an unselected trait while 5 traits are selected changes
nothing. -/
theorem toggleTrait_full_noop (l : List String) (t : String)
    (hmem : t ∉ l) (hfive : l.length = 5) :
    toggleTrait l t = l := by
  rw [toggleTrait, if_neg hmem, if_neg (by simp [hfive])]

/-- C7: whatever sequence of trait clicks is made from the empty initial
selection, the personality_traits list stays at most 5 long and free of
duplicates; every single toggle preserves the selection order (the
result is a subsequence of the old list with the trait possibly appended
at the end); toggling a selected trait removes exactly that trait; and
toggling an unselected trait while 5 are selected changes nothing. -/
theorem personality_traits_selection (ts : List String) :
    ((ts.foldl toggleTrait []).length ≤ 5 ∧ (ts.foldl toggleTrait []).Nodup)
    ∧ (∀ t, (toggleTrait (ts.foldl toggleTrait []) t).Sublist
          (ts.foldl toggleTrait [] ++ [t]))
    ∧ (∀ t, t ∈ ts.foldl toggleTrait [] →
        toggleTrait (ts.foldl toggleTrait []) t
          = (ts.foldl toggleTrait []).erase t)
    ∧ (∀ t, t ∉ ts.foldl toggleTrait [] →
        (ts.foldl toggleTrait []).length = 5 →
        toggleTrait (ts.foldl toggleTrait []) t = ts.foldl toggleTrait []) := by
  obtain ⟨hnd, hlen⟩ := foldl_toggleTrait_inv ts [] List.nodup_nil (by simp)
  refine ⟨⟨hlen, hnd⟩, ?_, ?_, ?_⟩
  · intro t
    exact toggleTrait_sublist_append _ t
  · intro t hmem
    exact toggleTrait_mem_erase _ t hnd hmem
  · intro t hmem hfive
    exact toggleTrait_full_noop _ t hmem hfive

/-- Witness for C7: the click sequence a, b, a leaves the selection at
the single trait b; toggling b then removes it and nothing overflows. -/
theorem personality_traits_selection_witness :
    ((["a", "b", "a"].foldl toggleTrait []).length ≤ 5
      ∧ (["a", "b", "a"].foldl toggleTrait []).Nodup)
    ∧ toggleTrait (["a", "b", "a"].foldl toggleTrait []) "b"
        = (["a", "b", "a"].foldl toggleTrait []).erase "b" := by
  have h := personality_traits_selection ["a", "b", "a"]
  exact ⟨h.1, h.2.2.1 "b" (by decide)⟩

/-- C8: the auth callback never redirects while an identity is present;
with no identity it pushes /login exactly when the current pathname is
neither /login nor /signup, and stays put on those two entry paths. -/
theorem auth_redirect_rule (u : Option String) (path : String) :
    (∀ uid, u = some uid → (onAuthChangedCallback u path).redirect = none)
    ∧ (u = none → path ≠ "/login" → path ≠ "/signup" →
        (onAuthChangedCallback u path).redirect = some "/login")
    ∧ (u = none → (path = "/login" ∨ path = "/signup") →
        (onAuthChangedCallback u path).redirect = none) := by
  refine ⟨?_, ?_, ?_⟩
  · intro uid hu
    subst hu
    rfl
  · intro hu h1 h2
    subst hu
    simp [onAuthChangedCallback, h1, h2]
  · intro hu hpath
    subst hu
    rcases hpath with h | h <;> subst h <;> rfl

/-- Witness for C8: with no identity on a protected path the callback
redirects to /login; on the login path it does not; with an identity it
never does. -/
theorem auth_redirect_rule_witness :
    (onAuthChangedCallback none "/chat/p1").redirect = some "/login"
    ∧ (onAuthChangedCallback none "/login").redirect = none
    ∧ (onAuthChangedCallback (some "u1") "/login").redirect = none := by
  refine ⟨?_, ?_, ?_⟩
  · exact (auth_redirect_rule none "/chat/p1").2.1 rfl (by decide) (by decide)
  · exact (auth_redirect_rule none "/login").2.2 rfl (Or.inl rfl)
  · exact (auth_redirect_rule (some "u1") "/login").1 "u1" rfl

/-- C9: when both fetches of init succeed but the history payload's
messages field is absent (null or missing, the falsy case of the JS
default), the local message list is initialised to the empty list. -/
theorem init_falsy_messages_empty (s : ChatState) (p : Pet) :
    (init (Except.ok p) (Except.ok ⟨none⟩) s).state.messages = [] := rfl

/-- C10: a confirmed delete that succeeds keeps exactly the pets whose
id differs from the deleted id — each survivor is an unmodified element
of the old list, kept in its original relative order (the result is a
subsequence) — while a failed delete returns the list unchanged. -/
theorem delete_pet_filters_exactly (pets : List Pet) (id : String) :
    (∀ p, p ∈ handleDeletePet pets true (Except.ok ()) id
        ↔ (p ∈ pets ∧ p.id ≠ id))
    ∧ (handleDeletePet pets true (Except.ok ()) id).Sublist pets
    ∧ handleDeletePet pets true (Except.error ()) id = pets := by
  refine ⟨?_, ?_, rfl⟩
  · intro p
    simp [handleDeletePet, List.mem_filter]
  · exact List.filter_sublist _

/-- A sample pet record with a given id, used by the C10 witness. -/
def samplePet (i : String) : Pet :=
  ⟨i, "Buster", "dog", none, none, [], [], none, "T0"⟩

/-- Witness for C10: deleting id b from the two-pet list keeps pet a and
drops pet b; a failed delete keeps both. -/
theorem delete_pet_filters_exactly_witness :
    (samplePet "a" ∈ handleDeletePet [samplePet "a", samplePet "b"] true
        (Except.ok ()) "b"
      ↔ (samplePet "a" ∈ [samplePet "a", samplePet "b"]
          ∧ (samplePet "a").id ≠ "b"))
    ∧ handleDeletePet [samplePet "a", samplePet "b"] true (Except.error ()) "b"
        = [samplePet "a", samplePet "b"] := by
  have h := delete_pet_filters_exactly [samplePet "a", samplePet "b"] "b"
  exact ⟨h.1 (samplePet "a"), h.2.2⟩
